import Mathlib

/-!
Shallow embedding of the order-payment reconciliation flow of the
"Amargo y Dulce" storefront: the cart store, the MercadoPago webhook
handler, the invoice generation route and the preference-creation route,
together with theorems settling the spec claims about them.

Conventions of the embedding:
* JS numbers that hold money/quantities are modelled as `Rat` (or `Int`
  where the source always produces integers); `Math.round` is `round`
  (both compute ⌊x + 1/2⌋).
* Nullable fields are `Option`; JS `||` on strings is `jsOrS` (empty
  string is falsy), JS `??` is `Option.orElse`/`getD`.
* Fallible external calls (MercadoPago, Strapi, mail) are pre-determined
  `Except`/`Option` values carried in an environment record; stateful
  Strapi collections (the invoice table) are threaded explicitly.
* Strapi v4/v5 row shapes (`row.attributes` vs flat) are modelled as
  already-flattened rows, matching what the source's flatteners produce.
-/

/- ===================== JS-semantics helpers ===================== -/

/-- Whitespace trim, modelling `String.prototype.trim` (built from list
primitives so that concrete runs reduce). -/
def jsTrim (s : String) : String :=
  String.mk (((s.toList.dropWhile Char.isWhitespace).reverse.dropWhile
    Char.isWhitespace).reverse)

/-- JS `a || b` on nullable strings: `null` and `""` are falsy. -/
def jsOrS (a b : Option String) : Option String :=
  match a with
  | some s => if s = "" then b else some s
  | none => b

/-- JS truthiness filter on a nullable string: `""` collapses to `null`.
Models idioms like `id ? String(id) : null`. -/
def toTruthy (a : Option String) : Option String :=
  match a with
  | some s => if s = "" then none else some s
  | none => a

/-- JS `o || d` where `d` is a non-empty default string. -/
def jsOrStr (o : Option String) (d : String) : String :=
  match o with
  | some s => if s = "" then d else s
  | none => d

/-- `normStrOrNull` from the cart store: trim, and `""` becomes `null`. -/
def normStrOrNull (v : Option String) : Option String :=
  match v with
  | some s => let t := jsTrim s; if t = "" then none else some t
  | none => none

/-- Lower-casing, modelling `String.prototype.toLowerCase` over ASCII. -/
def toLowerStr (s : String) : String :=
  String.mk (s.toList.map Char.toLower)

/-- Does `pat` occur as a contiguous run of `l`? -/
def hasInfix (l pat : List Char) : Bool :=
  match l with
  | [] => pat.isEmpty
  | _ :: t => pat.isPrefixOf l || hasInfix t pat

/-- Substring test, modelling JS `String.prototype.includes`. -/
def containsSubstr (s pat : String) : Bool :=
  hasInfix s.toList pat.toList

/-- `String.prototype.startsWith`. -/
def startsWithStr (s pat : String) : Bool :=
  pat.toList.isPrefixOf s.toList

/-- Left-pad a numeral to two digits, modelling `String(n).padStart(2, "0")`. -/
def pad2 (n : Nat) : String :=
  if n < 10 then "0" ++ toString n else toString n

/-- Remove all whitespace, modelling `.replace(/\s+/g, "")`. -/
def stripWhitespace (s : String) : String :=
  String.mk (s.toList.filter (fun c => !c.isWhitespace))

/- ===================== Cart store (src/store/cart.store.ts, persist v4) ===================== -/

/-- A cart line as stored by the zustand cart store.  Quantities are
integers (the store only ever writes `Math.floor`ed values). -/
structure CItem where
  id : Int
  documentId : Option String
  slug : String
  title : String
  price : Rat
  off : Option Rat
  stock : Option Int
  qty : Int
deriving Repr, DecidableEq

/-- The product argument of `addItem` (fields the store reads; absent
fields are `none`). -/
structure PInput where
  id : Option Int
  documentId : Option String
  slug : Option String
  title : String
  price : Option Rat
  off : Option Rat
  stock : Option Int
deriving Repr, DecidableEq

/-- `normalizeQty` of the v4 store: `Math.max(0, Math.floor(n))`. -/
def normalizeQty (v : Int) : Int := max 0 v

/-- `pickStockOrNull`: absent stock stays `null`, otherwise `Math.max(0, Math.trunc(n))`. -/
def pickStockOrNull (p : PInput) : Option Int :=
  p.stock.map (fun n => max 0 n)

/-- `clampQty(nextQty, stock)`: normalize, then cap at `stock` when known. -/
def clampQty (n : Int) (stock : Option Int) : Int :=
  let q := normalizeQty n
  match stock with
  | none => q
  | some s => min q s

/-- `normalizeCartItem(product, qty)`. -/
def normalizeCartItem (p : PInput) (qty : Int) : CItem :=
  let idNum := p.id.getD 0
  let documentId :=
    normStrOrNull p.documentId
  let slug :=
    (normStrOrNull p.slug).getD
      (if idNum ≠ 0 then toString idNum else documentId.getD "item")
  { id := idNum
    documentId := documentId
    slug := slug
    title := p.title
    price := p.price.getD 0
    off := p.off
    stock := pickStockOrNull p
    qty := normalizeQty qty }

/-- Identity key of a line: `i.documentId ?? i.slug`. -/
def keyOf (i : CItem) : String := i.documentId.getD i.slug

/-- `addItem(product, qty)` of the v4 store. -/
def addItem (items : List CItem) (p : PInput) (qty : Int) : List CItem :=
  let addQty := max 1 (normalizeQty qty)
  let normalized := normalizeCartItem p addQty
  let key := normalized.documentId.getD normalized.slug
  match items.find? (fun i => keyOf i == key) with
  | some existing =>
    let existingStock :=
      match existing.stock with
      | some s => some s
      | none => normalized.stock
    items.map (fun i =>
      if keyOf i == key then
        { i with stock := existingStock
                 qty := max 1 (clampQty (normalizeQty i.qty + addQty) existingStock) }
      else i)
  | none =>
    match normalized.stock with
    | some s =>
      if s ≤ 0 then items
      else items ++ [{ normalized with qty := max 1 (clampQty normalized.qty normalized.stock) }]
    | none => items ++ [{ normalized with qty := max 1 (clampQty normalized.qty normalized.stock) }]

/-- `inc(slug)` of the v4 store. -/
def inc (items : List CItem) (slug : String) : List CItem :=
  items.map (fun i =>
    if i.slug == slug then
      let stock := i.stock
      let nextQtyRaw := max 1 (normalizeQty i.qty + 1)
      { i with qty := max 1 (clampQty nextQtyRaw stock) }
    else i)

/-- `dec(slug)` of the v4 store: drop 1, then drop lines that reached 0. -/
def dec (items : List CItem) (slug : String) : List CItem :=
  (items.map (fun i =>
    if i.slug == slug then { i with qty := normalizeQty (normalizeQty i.qty - 1) } else i)
  ).filter (fun i => normalizeQty i.qty > 0)

/-- `totalItems()`. -/
def totalItems (items : List CItem) : Int :=
  items.foldl (fun acc i => acc + normalizeQty i.qty) 0

/-- Discounted unit price of one line, as computed inside `totalPrice()`. -/
def lineFinalPrice (i : CItem) : Rat :=
  let off := i.off.getD 0
  if 0 < off then ((round (i.price * (1 - off / 100)) : Int) : Rat) else i.price

/-- `totalPrice()`: fold of discounted unit price × quantity. -/
def totalPrice (items : List CItem) : Rat :=
  items.foldl (fun acc i => acc + lineFinalPrice i * ((normalizeQty i.qty : Int) : Rat)) 0

/- ===================== Order status mapping (webhook route) ===================== -/

/-- `mapMpToOrderStatus(mpStatus?)` from the webhook route. -/
def mapMpToOrderStatus : Option String → String
  | some "approved" => "paid"
  | some "rejected" => "failed"
  | some "cancelled" => "cancelled"
  | _ => "pending"

/- ===================== Invoice generation (api/invoices/generate) ===================== -/

/-- A calendar date as produced by `new Date()` accessors
(`getFullYear`, `getMonth()+1`, `getDate`). -/
structure WDate where
  year : Nat
  month : Nat
  day : Nat
deriving Repr, DecidableEq

/-- `buildInvoiceNumber(orderNumber)`: `RC_YYYYMMDD_<orderNumber without whitespace>`,
falling back to `AMG-XXXX` when the order number is falsy. -/
def buildInvoiceNumber (d : WDate) (orderNumber : String) : String :=
  let base := stripWhitespace (if orderNumber = "" then "AMG-XXXX" else orderNumber)
  "RC_" ++ toString d.year ++ pad2 d.month ++ pad2 d.day ++ "_" ++ base

/-- The order fields the generate route reads from Strapi. -/
structure GenOrder where
  documentId : String
  orderStatus : Option String
  orderNumber : Option String
  total : Option Rat
deriving Repr, DecidableEq

/-- An invoice record in the Strapi `invoices` collection (with the url of
its populated `pdf` media, when any). -/
structure Invoice where
  number : String
  pdfUrl : Option String
  total : Rat
  currency : String
deriving Repr, DecidableEq

/-- The uploaded PDF file as returned by Strapi's upload endpoint. -/
structure UploadedFile where
  id : Nat
  url : Option String
deriving Repr, DecidableEq

/-- Pre-determined outcomes of the external calls the generate route makes,
plus the date it runs on.  `orderFetch` is `error status` when the Strapi
order query fails, `ok none` when no order matches. -/
structure GenEnv where
  tokenOk : Bool
  orderFetch : Except Nat (Option GenOrder)
  findOk : Bool
  pdfOk : Bool
  uploadResult : Option UploadedFile
  createAccepted : Bool
  today : WDate

/-- Response of the generate route (the fields its callers read). -/
structure GenResult where
  status : Nat
  ok : Bool
  alreadyExists : Bool
  invoiceNumber : Option String
  pdfUrl : Option String
deriving Repr, DecidableEq

/-- `findInvoiceByNumber`: first invoice whose `number` matches
(`pagination[pageSize]=1`). -/
def findInvoiceByNumber (store : List Invoice) (n : String) : Option Invoice :=
  store.find? (fun inv => inv.number == n)

/-- `POST /api/invoices/generate` on body `{ orderId }`: returns the HTTP
response and the invoice collection after the call. -/
def generateInvoice (orderId : String) (env : GenEnv) (store : List Invoice) :
    GenResult × List Invoice :=
  if ¬ env.tokenOk then
    ({ status := 500, ok := false, alreadyExists := false, invoiceNumber := none, pdfUrl := none }, store)
  else if jsTrim orderId = "" then
    ({ status := 400, ok := false, alreadyExists := false, invoiceNumber := none, pdfUrl := none }, store)
  else
    match env.orderFetch with
    | .error st =>
      ({ status := if st = 0 then 500 else st, ok := false, alreadyExists := false,
         invoiceNumber := none, pdfUrl := none }, store)
    | .ok none =>
      ({ status := 404, ok := false, alreadyExists := false, invoiceNumber := none, pdfUrl := none }, store)
    | .ok (some order) =>
      if toLowerStr (order.orderStatus.getD "") ≠ "paid" then
        ({ status := 409, ok := false, alreadyExists := false, invoiceNumber := none, pdfUrl := none }, store)
      else
        let orderNumber := order.orderNumber.getD "AMG-XXXX"
        let invoiceNumber := buildInvoiceNumber env.today orderNumber
        if ¬ env.findOk then
          ({ status := 400, ok := false, alreadyExists := false, invoiceNumber := none, pdfUrl := none }, store)
        else
          match findInvoiceByNumber store invoiceNumber with
          | some existing =>
            ({ status := 200, ok := true, alreadyExists := true,
               invoiceNumber := some invoiceNumber, pdfUrl := existing.pdfUrl }, store)
          | none =>
            if ¬ env.pdfOk then
              ({ status := 500, ok := false, alreadyExists := false, invoiceNumber := none, pdfUrl := none }, store)
            else
              match env.uploadResult with
              | none =>
                ({ status := 500, ok := false, alreadyExists := false, invoiceNumber := none, pdfUrl := none }, store)
              | some file =>
                if ¬ env.createAccepted then
                  ({ status := 500, ok := false, alreadyExists := false, invoiceNumber := none, pdfUrl := none }, store)
                else
                  let newInv : Invoice :=
                    { number := invoiceNumber, pdfUrl := file.url,
                      total := order.total.getD 0, currency := "ARS" }
                  ({ status := 200, ok := true, alreadyExists := false,
                     invoiceNumber := some invoiceNumber, pdfUrl := file.url }, store ++ [newInv])

/- ===================== Webhook (api/mp/webhook) ===================== -/

/-- The payment object fields the webhook reads from MercadoPago. -/
structure MpPayment where
  status : Option String
  statusDetail : Option String
  externalReference : Option String
  metaMpExternalReference : Option String
  metaExternalReference : Option String
  orderId : Option String
deriving Repr, DecidableEq

/-- The order fields `findOrderByMpExternalReference` returns. -/
structure WOrder where
  documentId : String
  orderStatus : Option String
  email : Option String
  name : Option String
  orderNumber : Option String
  total : Option Rat
  phone : Option String
  stockAdjusted : Bool
deriving Repr, DecidableEq

/-- One webhook delivery: the query parameters and JSON body of the request,
the server's configuration, and the pre-determined outcomes of every
external call the handler can make. -/
structure WebhookEnv where
  qType : Option String
  qTopic : Option String
  qAction : Option String
  qDataId : Option String
  qId : Option String
  qDataBracketId : Option String
  qPaymentId : Option String
  qCollectionId : Option String
  bType : Option String
  bTopic : Option String
  bAction : Option String
  bDataId : Option String
  bId : Option String
  mpToken : Option String
  resolveMerchant : Except String (Option String)
  paymentFetch : Except String MpPayment
  strapiToken : Option String
  orderLookup : Except String (Option WOrder)
  updateResult : Except String Unit
  gen : GenEnv

/-- What the webhook run produced: the HTTP response (status plus the
response tags the handler writes) and whether the confirmation email
send was triggered. -/
structure WebhookOut where
  status : Nat
  tag : String
  becamePaid : Option Bool
  emailSent : Bool
deriving Repr, DecidableEq

/-- An always-200 response with no side effects, as produced by the
handler's early returns and its catch-all. -/
def wOk (tag : String) : WebhookOut :=
  { status := 200, tag := tag, becamePaid := none, emailSent := false }

/-- `pickNotificationInfo(url, body)`: the notification type and id, with
query parameters taking precedence over the JSON body. -/
def pickNotificationInfo (env : WebhookEnv) : Option String × Option String :=
  let typeFromQuery := jsOrS env.qType (jsOrS env.qTopic env.qAction)
  let qpId :=
    jsOrS env.qDataId (jsOrS env.qId (jsOrS env.qDataBracketId
      (jsOrS env.qPaymentId env.qCollectionId)))
  let bodyType := jsOrS env.bType (jsOrS env.bTopic env.bAction)
  let bodyId := jsOrS env.bDataId (jsOrS env.bDataId env.bId)
  (toTruthy (jsOrS typeFromQuery bodyType), toTruthy (jsOrS qpId bodyId))

/-- The webhook handler from the point where a concrete payment id has been
determined: fetch the payment, look up the order by external reference,
write the status, and run the side effects. -/
def webhookWithPayment (env : WebhookEnv) (store : List Invoice) (_paymentId : String) :
    WebhookOut × List Invoice :=
  match env.paymentFetch with
  | .error _ => (wOk "payment_fetch_failed", store)
  | .ok payment =>
    let extRefRaw :=
      (payment.externalReference.orElse (fun _ =>
        payment.metaMpExternalReference.orElse (fun _ => payment.metaExternalReference)))
    match toTruthy extRefRaw with
    | none => (wOk "missing_external_reference", store)
    | some _ =>
      match env.strapiToken with
      | none => (wOk "missing_strapi_token", store)
      | some _ =>
        match env.orderLookup with
        | .error _ => (wOk "order_search_failed", store)
        | .ok none => (wOk "order_not_found", store)
        | .ok (some order) =>
          let prevStatus := jsOrStr order.orderStatus "pending"
          let nextStatus := mapMpToOrderStatus payment.status
          match env.updateResult with
          | .error _ => (wOk "update_failed", store)
          | .ok _ =>
            let becamePaid := (prevStatus != "paid") && (nextStatus == "paid")
            let genStep :=
              if nextStatus == "paid" then
                generateInvoice order.documentId env.gen store
              else
                ({ status := 0, ok := false, alreadyExists := false,
                   invoiceNumber := none, pdfUrl := none }, store)
            let store1 := genStep.2
            let emailSent :=
              if becamePaid then (toTruthy order.email).isSome else false
            ({ status := 200, tag := "done", becamePaid := some becamePaid,
               emailSent := emailSent }, store1)

/-- `POST /api/mp/webhook`. -/
def webhookPOST (env : WebhookEnv) (store : List Invoice) : WebhookOut × List Invoice :=
  let info := pickNotificationInfo env
  match info.2 with
  | none => (wOk "no_id", store)
  | some theId =>
    match env.mpToken with
    | none => (wOk "missing_mp_token", store)
    | some _ =>
      match info.1 with
      | none => webhookWithPayment env store theId
      | some t =>
        if containsSubstr t "payment" then
          webhookWithPayment env store theId
        else if containsSubstr t "merchant_order" then
          match env.resolveMerchant with
          | .error _ => (wOk "merchant_order_resolve_failed", store)
          | .ok none => (wOk "no_payment_yet", store)
          | .ok (some pid) => webhookWithPayment env store pid
        else (wOk "unsupported_topic", store)

/-- `GET /api/mp/webhook`: delegates to the POST handler on the same request. -/
def webhookGET (env : WebhookEnv) (store : List Invoice) : WebhookOut × List Invoice :=
  webhookPOST env store

/- ===================== Preference creation (api/mp/create-preference) ===================== -/

/-- A line item of an order as stored in Strapi (fields the route reads). -/
structure OrderItem where
  productDocumentId : Option String
  qty : Option Rat
  quantity : Option Rat
  title : Option String
  unitPrice : Option Rat
  price : Option Rat
deriving Repr, DecidableEq

/-- The order fields `getOrderFromStrapi` returns (flattened row). -/
structure COrder where
  documentId : Option String
  orderNumber : Option String
  mpExternalReference : Option String
  items : List OrderItem
  total : Option Rat
deriving Repr, DecidableEq

/-- A product row from Strapi's products collection (flattened). -/
structure ProductRow where
  documentId : Option String
  title : Option String
  stock : Option Rat
deriving Repr, DecidableEq

/-- One entry of the stock-conflict `problems` list. -/
structure StockProblem where
  productDocumentId : String
  title : String
  requested : Rat
  available : Rat
deriving Repr, DecidableEq

/-- Aggregated requirement for one product document id (`need` map values). -/
structure NeedReq where
  requested : Rat
  title : String
deriving Repr, DecidableEq

/-- `pickDocumentId(row)`: trimmed, `""` is `null`. -/
def pickDocumentId (row : ProductRow) : Option String :=
  match row.documentId with
  | none => none
  | some v => let s := jsTrim v; if s = "" then none else some s

/-- `pickTitle(row)`. -/
def pickTitle (row : ProductRow) : String :=
  row.title.getD "Producto"

/-- `pickStock(row)`: `null`/absent means "no stock control". -/
def pickStock (row : ProductRow) : Option Rat :=
  row.stock

/-- `Map.set` over an insertion-ordered association list: update in place,
or append a fresh key at the end. -/
def setNeed : List (String × NeedReq) → String → NeedReq → List (String × NeedReq)
  | [], d, r => [(d, r)]
  | (d1, r1) :: rest, d, r =>
    if d1 = d then (d, r) :: rest else (d1, r1) :: setNeed rest d r

/-- `Map.get` over the `need` association list. -/
def needLookup (need : List (String × NeedReq)) (d : String) : Option NeedReq :=
  (need.find? (fun e => e.1 = d)).map (fun e => e.2)

/-- The `need` aggregation loop of `validateStockOrThrow`: per document id,
sum the requested quantities (skipping empty ids and non-positive
quantities) and remember a title. -/
def buildNeed (items : List OrderItem) : List (String × NeedReq) :=
  items.foldl (fun need it =>
    let doc := jsTrim (it.productDocumentId.getD "")
    let q := (it.qty.orElse (fun _ => it.quantity)).getD 0
    if doc = "" ∨ q ≤ 0 then need
    else
      let prev := needLookup need doc
      setNeed need doc
        { requested := (prev.map (fun r => r.requested)).getD 0 + q
          title := (it.title.orElse (fun _ => prev.map (fun r => r.title))).getD "Producto" })
    []

/-- `byDoc.get(doc)` where `byDoc` was filled by iterating the fetched rows
(later rows with the same document id overwrite earlier ones). -/
def byDocGet (rows : List ProductRow) (d : String) : Option ProductRow :=
  rows.foldl (fun acc row => if pickDocumentId row = some d then some row else acc) none

/-- The problem the shortfall loop records for one `need` entry, if any:
missing product rows count as available 0, `null` stock is exempt. -/
def problemOf (rows : List ProductRow) (e : String × NeedReq) : Option StockProblem :=
  match byDocGet rows e.1 with
  | none => some { productDocumentId := e.1, title := e.2.title, requested := e.2.requested, available := 0 }
  | some row =>
    match pickStock row with
    | none => none
    | some s =>
      if s < e.2.requested then
        some { productDocumentId := e.1, title := pickTitle row, requested := e.2.requested, available := s }
      else none

/-- The `problems` list accumulated over the `need` entries in order. -/
def computeProblems (rows : List ProductRow) (need : List (String × NeedReq)) :
    List StockProblem :=
  need.filterMap (problemOf rows)

/-- Outcome of `validateStockOrThrow`. -/
inductive StockCheck where
  | ok : StockCheck
  | fetchFailed (status : Nat) : StockCheck
  | outOfStock (problems : List StockProblem) : StockCheck
deriving Repr, DecidableEq

/-- `validateStockOrThrow(strapiBase, token, items)`: skip entirely when no
item names a product; otherwise fetch the rows and collect shortfalls. -/
def validateStock (productsFetch : Except Nat (List ProductRow)) (items : List OrderItem) :
    StockCheck :=
  let need := buildNeed items
  if need.isEmpty then .ok
  else
    match productsFetch with
    | .error st => .fetchFailed st
    | .ok rows =>
      let ps := computeProblems rows need
      if ps.isEmpty then .ok else .outOfStock ps

/-- A line item of the body sent to MercadoPago's preference endpoint. -/
structure MPChargeItem where
  title : String
  quantity : Int
  unitPrice : Rat
  currency : String
deriving Repr, DecidableEq

/-- The preference body fields relevant to the claims. -/
structure PreferenceBody where
  items : List MPChargeItem
  externalReference : String
deriving Repr, DecidableEq

/-- One preference-creation request: the client body (whose `items`/`total`
the handler deliberately never reads), the server configuration, and the
pre-determined outcomes of the Strapi calls. -/
structure PrefEnv where
  bodyOk : Bool
  bodyOrderId : Option String
  bodyMpExternalReference : Option String
  bodyItems : List OrderItem
  bodyTotal : Option Rat
  mpToken : Option String
  siteUrl : String
  strapiToken : Option String
  orderFetch : Except Nat COrder
  productsFetch : Except Nat (List ProductRow)
  mpCall : Except Nat Unit

/-- Response of the preference route: HTTP status, error code, stock
problems (when any), and the body sent to MercadoPago (when the provider
was actually called). -/
structure PrefOut where
  status : Nat
  code : Option String
  problems : List StockProblem
  mpRequest : Option PreferenceBody
deriving Repr, DecidableEq

/-- An error response of the preference route: the provider is not called. -/
def prefErr (st : Nat) : PrefOut :=
  { status := st, code := none, problems := [], mpRequest := none }

/-- `isHttpUrl`, the `/^https?:\/\//i` test. -/
def isHttpUrl (s : String) : Bool :=
  startsWithStr (toLowerStr s) "http://" || startsWithStr (toLowerStr s) "https://"

/-- `normalizeBaseUrl`: drop one trailing slash. -/
def normalizeBaseUrl (s : String) : String :=
  let t := jsTrim s
  if t.toList.getLast? == some (Char.ofNat 47) then String.mk t.toList.dropLast else t

/-- The sanity-check normalization of the order's own items (step 2 of the
route); only used to reject orders with no chargeable line. -/
def normalizedItems (items : List OrderItem) : List MPChargeItem :=
  (items.map (fun it =>
    let title := jsTrim (it.title.getD "Producto")
    let quantityRaw := (it.qty.orElse (fun _ => it.quantity)).getD 1
    let quantity := max 1 ⌊quantityRaw⌋
    let unitPrice := (it.unitPrice.orElse (fun _ => it.price)).getD 0
    { title := if title = "" then "Producto" else title
      quantity := quantity
      unitPrice := unitPrice
      currency := "ARS" })).filter
    (fun it => it.title != "" && it.quantity > 0 && it.unitPrice > 0)

/-- The single synthetic charge line: the order's stored total, rounded. -/
def chargeItemOf (orderNumber : Option String) (total : Rat) : MPChargeItem :=
  { title := (match orderNumber with
              | some onum => "Pedido " ++ onum
              | none => "Compra Amargo y Dulce")
    quantity := 1
    unitPrice := ((round total : Int) : Rat)
    currency := "ARS" }

/-- The external reference the route settles on: the order's own trimmed
`mpExternalReference` when non-empty, else the trimmed one from the client
body, else `""`. -/
def mpRefOf (env : PrefEnv) (o : COrder) : String :=
  match o.mpExternalReference with
  | some s =>
    if jsTrim s ≠ "" then jsTrim s
    else match env.bodyMpExternalReference with
         | some b => jsTrim b
         | none => ""
  | none =>
    match env.bodyMpExternalReference with
    | some b => jsTrim b
    | none => ""

/-- `POST /api/mp/create-preference`. -/
def createPreference (env : PrefEnv) : PrefOut :=
  if ¬ env.bodyOk then prefErr 400
  else match env.mpToken with
  | none => prefErr 500
  | some _ =>
    if ¬ isHttpUrl (normalizeBaseUrl env.siteUrl) then prefErr 500
    else match env.strapiToken with
    | none => prefErr 500
    | some _ =>
      let orderId := jsTrim (env.bodyOrderId.getD "")
      if orderId = "" then prefErr 400
      else match env.orderFetch with
      | .error st => prefErr (if st = 0 then 500 else st)
      | .ok order =>
        let orderNumber := toTruthy order.orderNumber
        let mpExternalReference := mpRefOf env order
        if mpExternalReference = "" then prefErr 400
        else if order.items.isEmpty then prefErr 400
        else match order.total with
        | none => prefErr 400
        | some total =>
          if total ≤ 0 then prefErr 400
          else
            match validateStock env.productsFetch order.items with
            | .fetchFailed _ => prefErr 500
            | .outOfStock ps =>
              { status := 409, code := some "OUT_OF_STOCK", problems := ps, mpRequest := none }
            | .ok =>
              if (normalizedItems order.items).isEmpty then prefErr 400
              else
                let pb : PreferenceBody :=
                  { items := [chargeItemOf orderNumber total]
                    externalReference := mpExternalReference }
                match env.mpCall with
                | .error st =>
                  { status := if st = 0 then 500 else st, code := none,
                    problems := [], mpRequest := some pb }
                | .ok _ =>
                  { status := 200, code := none, problems := [], mpRequest := some pb }

/- ===================== Concrete inputs for witnesses and counterexamples ===================== -/

/-- A one-line cart whose line has no stock information yet. -/
def c7items : List CItem :=
  [{ id := 1, documentId := none, slug := "choc", title := "Choc",
     price := 100, off := none, stock := none, qty := 1 }]

/-- The same product, now carrying backend stock 0, merged into the cart. -/
def c7prod : PInput :=
  { id := some 1, documentId := none, slug := some "choc", title := "Choc",
    price := some 100, off := none, stock := some 0 }

/-- The merged line produced by the C7 counterexample run. -/
def c7merged : CItem :=
  { id := 1, documentId := none, slug := "choc", title := "Choc",
    price := 100, off := none, stock := some 0, qty := 1 }

/-- A one-line cart with quantity 1, for evaluating the decrement claim. -/
def c8items : List CItem :=
  [{ id := 2, documentId := none, slug := "torta", title := "Torta",
     price := 50, off := none, stock := some 5, qty := 1 }]

/-- The cart of the spec's worked example: price 100, 10% off, qty 2. -/
def c9items : List CItem :=
  [{ id := 3, documentId := none, slug := "bombon", title := "Bombon",
     price := 100, off := some 10, stock := none, qty := 2 }]

/-- A webhook delivery of the same notification via GET query parameters. -/
def deliverViaQuery (base : WebhookEnv) (t i : String) : WebhookEnv :=
  { base with
    qType := some t
    qTopic := none
    qAction := none
    qDataId := some i
    qId := none
    qDataBracketId := none
    qPaymentId := none
    qCollectionId := none
    bType := none
    bTopic := none
    bAction := none
    bDataId := none
    bId := none }

/-- The same notification delivered via the POST JSON body. -/
def deliverViaBody (base : WebhookEnv) (t i : String) : WebhookEnv :=
  { base with
    qType := none
    qTopic := none
    qAction := none
    qDataId := none
    qId := none
    qDataBracketId := none
    qPaymentId := none
    qCollectionId := none
    bType := some t
    bTopic := none
    bAction := none
    bDataId := some i
    bId := none }

/-- A generate-route environment where every external call succeeds and the
order is paid; runs on 2026-10-11. -/
def genEnvOk : GenEnv :=
  { tokenOk := true
    orderFetch := Except.ok (some { documentId := "doc1", orderStatus := some "paid",
                                    orderNumber := some "AMG-1", total := some 100 })
    findOk := true
    pdfOk := true
    uploadResult := some { id := 7, url := some "/uploads/rc.pdf" }
    createAccepted := true
    today := { year := 2026, month := 10, day := 11 } }

/-- An approved MercadoPago payment carrying an external reference. -/
def basePayment : MpPayment :=
  { status := some "approved", statusDetail := some "accredited",
    externalReference := some "ref-1", metaMpExternalReference := none,
    metaExternalReference := none, orderId := some "mo-1" }

/-- The matching backend order, already in status `paid`. -/
def baseOrder : WOrder :=
  { documentId := "doc1", orderStatus := some "paid", email := some "c@e.com",
    name := some "Cata", orderNumber := some "AMG-1", total := some 100,
    phone := none, stockAdjusted := false }

/-- A redelivered approved payment notification for the already-paid order,
with every external call succeeding. -/
def c1env : WebhookEnv :=
  { qType := some "payment", qTopic := none, qAction := none,
    qDataId := some "123", qId := none, qDataBracketId := none,
    qPaymentId := none, qCollectionId := none,
    bType := none, bTopic := none, bAction := none, bDataId := none, bId := none,
    mpToken := some "TOK", resolveMerchant := Except.ok none,
    paymentFetch := Except.ok basePayment,
    strapiToken := some "STOK",
    orderLookup := Except.ok (some baseOrder),
    updateResult := Except.ok (),
    gen := genEnvOk }

/-- Invoice collection holding the invoice generated on 2026-10-10, the day
the order was first paid. -/
def c1store : List Invoice :=
  [{ number := "RC_20261010_AMG-1", pdfUrl := some "/uploads/old.pdf",
     total := 100, currency := "ARS" }]

/-- The fresh invoice record the redelivery creates a day later. -/
def c1newInvoice : Invoice :=
  { number := "RC_20261011_AMG-1", pdfUrl := some "/uploads/rc.pdf",
    total := 100, currency := "ARS" }

/-- A paid order for exercising the generate route twice. -/
def c5order : GenOrder :=
  { documentId := "doc5", orderStatus := some "paid",
    orderNumber := some "AMG-7", total := some 250 }

/-- A generate-route environment for the idempotence witness. -/
def c5env : GenEnv :=
  { tokenOk := true, orderFetch := Except.ok (some c5order), findOk := true,
    pdfOk := true, uploadResult := some { id := 9, url := some "/uploads/rc7.pdf" },
    createAccepted := true, today := { year := 2026, month := 1, day := 5 } }

/-- An order whose stored total is fractional (99.5), to exercise the
rounding in the charge line. -/
def c3order : COrder :=
  { documentId := some "d1", orderNumber := some "AMG-1",
    mpExternalReference := some "ref-1",
    items := [{ productDocumentId := none, qty := some 1, quantity := none,
                title := some "Alfajor", unitPrice := some (199/2), price := none }],
    total := some (199/2) }

/-- A preference-creation request for `c3order` where every guard passes. -/
def c3env : PrefEnv :=
  { bodyOk := true, bodyOrderId := some "d1", bodyMpExternalReference := none,
    bodyItems := [], bodyTotal := none, mpToken := some "T",
    siteUrl := "https://shop.example", strapiToken := some "S",
    orderFetch := Except.ok c3order, productsFetch := Except.ok [],
    mpCall := Except.ok () }

/-- The `c3order` variant with an integer total, for the C3 witness. -/
def c3worder : COrder := { c3order with total := some 100 }

/-- The preference-creation request for `c3worder`. -/
def c3wenv : PrefEnv := { c3env with orderFetch := Except.ok c3worder }

/-- The preference body the route sends for `c3worder`. -/
def c3wpb : PreferenceBody :=
  { items := [chargeItemOf (toTruthy c3worder.orderNumber) 100],
    externalReference := "ref-1" }

/-- A stock-tracked product with backend stock 2. -/
def c4row : ProductRow :=
  { documentId := some "p1", title := some "Prod 1", stock := some 2 }

/-- A line item requesting 5 units of that product. -/
def c4item : OrderItem :=
  { productDocumentId := some "p1", qty := some 5, quantity := none,
    title := some "Prod 1", unitPrice := some 100, price := none }

/-- The order holding the shortfall line. -/
def c4order : COrder :=
  { documentId := some "d4", orderNumber := some "AMG-4",
    mpExternalReference := some "ref-4", items := [c4item], total := some 500 }

/-- A preference-creation request that reaches stock validation and hits
the shortfall. -/
def c4env : PrefEnv :=
  { bodyOk := true, bodyOrderId := some "d4", bodyMpExternalReference := none,
    bodyItems := [], bodyTotal := none, mpToken := some "T",
    siteUrl := "https://shop.example", strapiToken := some "S",
    orderFetch := Except.ok c4order, productsFetch := Except.ok [c4row],
    mpCall := Except.ok () }

/- ===================== Shared helper lemmas ===================== -/

theorem find?_eq_none_forall {α : Type} {p : α → Bool} {l : List α}
    (h : l.find? p = none) : ∀ a ∈ l, ¬ p a = true :=
  List.find?_eq_none.mp h

theorem foldl_add_sum (g : CItem → Rat) (l : List CItem) (a : Rat) :
    l.foldl (fun acc i => acc + g i) a = a + (l.map g).sum := by
  induction l generalizing a with
  | nil => simp
  | cons x xs ih =>
    simp only [List.foldl_cons, List.map_cons, List.sum_cons, ih]
    ring

/- ===================== C7: cart merge clamp ===================== -/

/-- **C7** (amended).  After a cart merge (`addItem` on an existing identity
key) or an increment, the affected line's quantity is at least 1 and at
most `max 1 stock` whenever its stock is known; the original claim's bound
`qty ≤ stock` fails at stock 0, where the store writes quantity 1. -/
theorem claim7_merge_clamp :
    (∀ (items : List CItem) (p : PInput) (q : Int) (i : CItem),
        i ∈ addItem items p q →
        keyOf i = keyOf (normalizeCartItem p (max 1 (normalizeQty q))) →
        1 ≤ i.qty ∧ ∀ s, i.stock = some s → i.qty ≤ max 1 s) ∧
    (∀ (items : List CItem) (slug : String) (i : CItem),
        i ∈ inc items slug → i.slug = slug →
        1 ≤ i.qty ∧ ∀ s, i.stock = some s → i.qty ≤ max 1 s) := by
  constructor
  · intro items p q i hmem hkey
    simp only [addItem, keyOf] at hmem hkey
    split at hmem
    case h_1 existing hfind =>
      rw [List.mem_map] at hmem
      obtain ⟨j, hj, rfl⟩ := hmem
      by_cases hc : (j.documentId.getD j.slug ==
          (normalizeCartItem p (max 1 (normalizeQty q))).documentId.getD
            (normalizeCartItem p (max 1 (normalizeQty q))).slug) = true
      · simp only [hc, if_true]
        refine ⟨le_max_left _ _, ?_⟩
        intro s hs
        rw [hs]
        simp only [clampQty, normalizeQty]
        omega
      · simp only [hc, if_false] at hkey
        exact absurd (by simpa using hkey) (by simpa using hc)
    case h_2 hfind =>
      have hnot := find?_eq_none_forall hfind
      split at hmem
      case h_1 s hstock =>
        split at hmem
        · exact absurd (by simpa using hkey) (by simpa using hnot i hmem)
        · rw [List.mem_append] at hmem
          rcases hmem with hmem | hmem
          · exact absurd (by simpa using hkey) (by simpa using hnot i hmem)
          · rw [List.mem_singleton] at hmem
            subst hmem
            refine ⟨le_max_left _ _, ?_⟩
            intro s1 hs1
            rw [hs1]
            simp only [clampQty, normalizeQty]
            omega
      case h_2 hstock =>
        rw [List.mem_append] at hmem
        rcases hmem with hmem | hmem
        · exact absurd (by simpa using hkey) (by simpa using hnot i hmem)
        · rw [List.mem_singleton] at hmem
          subst hmem
          refine ⟨le_max_left _ _, ?_⟩
          intro s1 hs1
          rw [hs1]
          simp only [clampQty, normalizeQty]
          omega
  · intro items slug i hmem hslug
    simp only [inc] at hmem
    rw [List.mem_map] at hmem
    obtain ⟨j, hj, rfl⟩ := hmem
    by_cases hc : (j.slug == slug) = true
    · simp only [hc, if_true]
      refine ⟨le_max_left _ _, ?_⟩
      intro s hs
      rw [hs]
      simp only [clampQty, normalizeQty]
      omega
    · simp only [hc, if_false] at hslug
      exact absurd (by simpa using hslug) (by simpa using hc)

/-- **C7** counterexample: merging a stock-0 product into an existing line
leaves the line with quantity 1 and stock 0 — the quantity exceeds the
known stock ceiling, refuting `qty ≤ stock` as stated. -/
theorem claim7_counterexample :
    addItem c7items c7prod 1 =
      [{ id := 1, documentId := none, slug := "choc", title := "Choc",
         price := 100, off := none, stock := some 0, qty := 1 }] ∧
    ¬ ((1 : Int) ≤ 0) := by
  constructor
  · decide
  · decide

/-- **C7** witness: the amended bound evaluated on the concrete merge. -/
theorem claim7_witness :
    1 ≤ c7merged.qty ∧ ∀ s, c7merged.stock = some s → c7merged.qty ≤ max 1 s :=
  claim7_merge_clamp.1 c7items c7prod 1 c7merged (by decide) (by decide)

/- ===================== C8: decrement removes and never goes negative ===================== -/

/-- **C8**.  Decrementing removes every line of the targeted slug whose
quantity was 1, and every line surviving a decrement has quantity ≥ 1 (so
no decrement sequence ever produces a negative quantity). -/
theorem claim8_dec_removes :
    (∀ (items : List CItem) (slug : String),
        (∀ i ∈ items, i.slug = slug → i.qty = 1) →
        ∀ j ∈ dec items slug, j.slug ≠ slug) ∧
    (∀ (items : List CItem) (slug : String) (j : CItem),
        j ∈ dec items slug → 1 ≤ j.qty) := by
  constructor
  · intro items slug h j hmem hjslug
    simp only [dec] at hmem
    rw [List.mem_filter] at hmem
    obtain ⟨hmap, hpos⟩ := hmem
    rw [List.mem_map] at hmap
    obtain ⟨i, hi, rfl⟩ := hmap
    by_cases hc : (i.slug == slug) = true
    · simp only [hc, if_true] at hpos hjslug
      have hq : i.qty = 1 := h i hi (by simpa using hc)
      simp only [normalizeQty, hq, gt_iff_lt, decide_eq_true_eq] at hpos
      omega
    · simp only [hc, if_false] at hjslug
      exact absurd (by simpa using hjslug) (by simpa using hc)
  · intro items slug j hmem
    simp only [dec] at hmem
    rw [List.mem_filter] at hmem
    obtain ⟨_, hpos⟩ := hmem
    simp only [normalizeQty, gt_iff_lt, decide_eq_true_eq] at hpos
    omega

/-- **C8** witness: on the concrete quantity-1 cart, decrementing leaves no
line for the slug (indeed the cart empties). -/
theorem claim8_witness :
    (∀ j ∈ dec c8items "torta", j.slug ≠ "torta") ∧ dec c8items "torta" = [] :=
  ⟨claim8_dec_removes.1 c8items "torta" (by decide), by decide⟩

/- ===================== C9: totalPrice formula ===================== -/

theorem totalPrice_eq_sum (items : List CItem) :
    totalPrice items =
      (items.map (fun i => lineFinalPrice i * ((normalizeQty i.qty : Int) : Rat))).sum := by
  simpa using foldl_add_sum (fun i => lineFinalPrice i * ((normalizeQty i.qty : Int) : Rat)) items 0

/-- **C9**.  `totalPrice` is the sum over lines of
`round(price * (1 - off/100)) * qty` when the discount percent is positive
and `price * qty` otherwise, and the worked single-line example yields 180. -/
theorem claim9_totalPrice :
    (∀ items : List CItem, (∀ i ∈ items, 0 ≤ i.qty) →
        totalPrice items =
          (items.map (fun i =>
            (if 0 < i.off.getD 0
             then ((round (i.price * (1 - i.off.getD 0 / 100)) : Int) : Rat)
             else i.price) * ((i.qty : Int) : Rat))).sum) ∧
    totalPrice c9items = 180 := by
  constructor
  · intro items h
    rw [totalPrice_eq_sum]
    congr 1
    apply List.map_congr_left
    intro i hi
    have hq : normalizeQty i.qty = i.qty := by
      have := h i hi
      simp only [normalizeQty]
      omega
    rw [hq, lineFinalPrice]
  · norm_num [c9items, totalPrice, lineFinalPrice, normalizeQty, round_eq]

/-- **C9** witness: the general formula evaluated on the worked example. -/
theorem claim9_witness :
    totalPrice c9items =
      (c9items.map (fun i =>
        (if 0 < i.off.getD 0
         then ((round (i.price * (1 - i.off.getD 0 / 100)) : Int) : Rat)
         else i.price) * ((i.qty : Int) : Rat))).sum :=
  claim9_totalPrice.1 c9items (by decide)

/- ===================== C2: provider status mapping ===================== -/

/-- **C2**.  The provider-status mapping is total: `approved ↦ paid`,
`rejected ↦ failed`, `cancelled ↦ cancelled`, and any other value —
including an absent status — maps to `pending`. -/
theorem claim2_status_mapping :
    mapMpToOrderStatus (some "approved") = "paid" ∧
    mapMpToOrderStatus (some "rejected") = "failed" ∧
    mapMpToOrderStatus (some "cancelled") = "cancelled" ∧
    mapMpToOrderStatus none = "pending" ∧
    (∀ s : Option String,
      s ≠ some "approved" → s ≠ some "rejected" → s ≠ some "cancelled" →
      mapMpToOrderStatus s = "pending") := by
  refine ⟨rfl, rfl, rfl, rfl, ?_⟩
  intro s h1 h2 h3
  rw [mapMpToOrderStatus.eq_def]
  split
  · exact absurd rfl h1
  · exact absurd rfl h2
  · exact absurd rfl h3
  · rfl

/-- **C2** witness: an unknown provider status maps to `pending`. -/
theorem claim2_witness : mapMpToOrderStatus (some "in_process") = "pending" :=
  claim2_status_mapping.2.2.2.2 (some "in_process") (by decide) (by decide) (by decide)

/- ===================== Webhook helper lemmas ===================== -/

theorem generateInvoice_preserves (oid : String) (env : GenEnv) (store : List Invoice)
    (h : ∀ go, env.orderFetch = Except.ok (some go) →
        (findInvoiceByNumber store
          (buildInvoiceNumber env.today (go.orderNumber.getD "AMG-XXXX"))).isSome) :
    (generateInvoice oid env store).2 = store := by
  unfold generateInvoice
  dsimp only
  repeat' split <;> try rfl
  all_goals exfalso
  all_goals simp_all

theorem webhookWithPayment_status200 (env : WebhookEnv) (store : List Invoice)
    (pid : String) : (webhookWithPayment env store pid).1.status = 200 := by
  unfold webhookWithPayment
  dsimp only
  repeat' split
  all_goals rfl

theorem webhookWithPayment_prev_paid (env : WebhookEnv) (store : List Invoice)
    (pid : String)
    (horder : ∀ o, env.orderLookup = Except.ok (some o) → o.orderStatus = some "paid")
    (hinv : ∀ go, env.gen.orderFetch = Except.ok (some go) →
        (findInvoiceByNumber store
          (buildInvoiceNumber env.gen.today (go.orderNumber.getD "AMG-XXXX"))).isSome) :
    (webhookWithPayment env store pid).1.emailSent = false ∧
    (webhookWithPayment env store pid).2 = store := by
  unfold webhookWithPayment
  dsimp only
  split
  · exact ⟨rfl, rfl⟩
  next payment hpay =>
    split
    · exact ⟨rfl, rfl⟩
    next =>
      split
      · exact ⟨rfl, rfl⟩
      next =>
        split
        · exact ⟨rfl, rfl⟩
        · exact ⟨rfl, rfl⟩
        next order hlook =>
          split
          · exact ⟨rfl, rfl⟩
          next =>
            have hstat : order.orderStatus = some "paid" := horder order hlook
            rw [hstat]
            constructor
            · simp [jsOrStr]
            · simp only [jsOrStr]
              split
              · exact generateInvoice_preserves order.documentId env.gen store hinv
              · rfl

theorem find?_append_none {α : Type} (p : α → Bool) (l1 l2 : List α)
    (h : l1.find? p = none) : (l1 ++ l2).find? p = l2.find? p := by
  rw [List.find?_append, h]
  rfl

/- ===================== C6: webhook always answers 200 ===================== -/

/-- **C6**.  The webhook handler responds with HTTP 200 on every request:
whatever the query, body, configuration, and outcomes of the external
calls, the response status is 200. -/
theorem claim6_always_200 (env : WebhookEnv) (store : List Invoice) :
    (webhookPOST env store).1.status = 200 := by
  unfold webhookPOST
  dsimp only
  repeat' split
  all_goals first
    | rfl
    | apply webhookWithPayment_status200

/- ===================== C10: GET delegates to POST ===================== -/

/-- **C10**.  The exported GET handler runs the POST handler on the same
request, and a notification delivered purely via query parameters is
processed exactly like the same notification delivered via the JSON body. -/
theorem claim10_get_delegates :
    (∀ (env : WebhookEnv) (store : List Invoice),
        webhookGET env store = webhookPOST env store) ∧
    (∀ (base : WebhookEnv) (t i : String) (store : List Invoice),
        t ≠ "" → i ≠ "" →
        webhookPOST (deliverViaQuery base t i) store =
        webhookPOST (deliverViaBody base t i) store) := by
  constructor
  · intro env store
    rfl
  · intro base t i store ht hi
    cases base
    simp only [deliverViaQuery, deliverViaBody, webhookPOST, pickNotificationInfo,
      jsOrS, toTruthy, ht, hi, if_false, webhookWithPayment]

/-- **C10** witness: the equivalence evaluated on a concrete notification. -/
theorem claim10_witness :
    webhookPOST (deliverViaQuery c1env "payment" "42") [] =
    webhookPOST (deliverViaBody c1env "payment" "42") [] :=
  claim10_get_delegates.2 c1env "payment" "42" [] (by decide) (by decide)

/- ===================== C1: no duplicate side effects on redelivery ===================== -/

/-- **C1** (amended).  For a delivery whose looked-up order already has
stored status `paid` (and an approved payment), the handler sends no
confirmation email; and it creates no new invoice record provided an
invoice whose number derives from the generate-route's order number and
the current date already exists.  (The generate call itself still fires on
every delivery mapping to `paid`; without that existing number — e.g. a
redelivery on a later date — a new invoice record is created, see the
counterexample.) -/
theorem claim1_no_duplicate_side_effects (env : WebhookEnv) (store : List Invoice)
    (horder : ∀ o, env.orderLookup = Except.ok (some o) → o.orderStatus = some "paid")
    (_happroved : ∀ p, env.paymentFetch = Except.ok p → p.status = some "approved")
    (hinv : ∀ go, env.gen.orderFetch = Except.ok (some go) →
        (findInvoiceByNumber store
          (buildInvoiceNumber env.gen.today (go.orderNumber.getD "AMG-XXXX"))).isSome) :
    (webhookPOST env store).1.emailSent = false ∧
    (webhookPOST env store).2 = store := by
  unfold webhookPOST
  dsimp only
  repeat' split
  all_goals first
    | exact ⟨rfl, rfl⟩
    | exact webhookWithPayment_prev_paid env store _ horder hinv

/-- **C1** counterexample: a redelivered approved notification for an order
already `paid`, arriving one day after the first invoice was generated —
no email is sent, but a brand-new invoice record is created, so the claim
"creates no new invoice record" fails as stated. -/
theorem claim1_counterexample :
    (∃ o, c1env.orderLookup = Except.ok (some o) ∧ o.orderStatus = some "paid") ∧
    (∃ p, c1env.paymentFetch = Except.ok p ∧ p.status = some "approved") ∧
    (webhookPOST c1env c1store).1.emailSent = false ∧
    (webhookPOST c1env c1store).2 = c1store ++ [c1newInvoice] := by
  refine ⟨⟨baseOrder, rfl, rfl⟩, ⟨basePayment, rfl, rfl⟩, ?_, ?_⟩ <;> decide

/-- **C1** witness: the amended claim evaluated on a same-date redelivery
(the derived invoice number already exists), with no email and an
unchanged invoice collection. -/
theorem claim1_witness :
    (webhookPOST c1env [c1newInvoice]).1.emailSent = false ∧
    (webhookPOST c1env [c1newInvoice]).2 = [c1newInvoice] := by
  apply claim1_no_duplicate_side_effects
  · intro o ho
    simp only [c1env, Except.ok.injEq, Option.some.injEq] at ho
    subst ho
    rfl
  · intro p hp
    simp only [c1env, Except.ok.injEq] at hp
    subst hp
    rfl
  · intro go hgo
    simp only [c1env, genEnvOk, Except.ok.injEq, Option.some.injEq] at hgo
    subst hgo
    decide

/- ===================== C5: invoice generation idempotent per number ===================== -/

/-- **C5**.  The invoice number the generate route uses derives only from
the fetched order's number and the current date; a second generation call
with the same derived number returns the existing invoice and its PDF
reference, marked `alreadyExists`, and appends no second invoice record. -/
theorem claim5_generate_idempotent (oid : String) (env : GenEnv) (store : List Invoice)
    (o : GenOrder)
    (htok : env.tokenOk = true)
    (hoid : ¬ jsTrim oid = "")
    (hfetch : env.orderFetch = Except.ok (some o))
    (hpaid : toLowerStr (o.orderStatus.getD "") = "paid")
    (hfind : env.findOk = true)
    (hpdf : env.pdfOk = true)
    (hupload : env.uploadResult.isSome)
    (hcreate : env.createAccepted = true) :
    (generateInvoice oid env store).1.invoiceNumber =
      some (buildInvoiceNumber env.today (o.orderNumber.getD "AMG-XXXX")) ∧
    (generateInvoice oid env (generateInvoice oid env store).2).1.ok = true ∧
    (generateInvoice oid env (generateInvoice oid env store).2).1.alreadyExists = true ∧
    (generateInvoice oid env (generateInvoice oid env store).2).1.invoiceNumber =
      some (buildInvoiceNumber env.today (o.orderNumber.getD "AMG-XXXX")) ∧
    (generateInvoice oid env (generateInvoice oid env store).2).2 =
      (generateInvoice oid env store).2 ∧
    (∃ inv, findInvoiceByNumber (generateInvoice oid env store).2
        (buildInvoiceNumber env.today (o.orderNumber.getD "AMG-XXXX")) = some inv ∧
      (generateInvoice oid env (generateInvoice oid env store).2).1.pdfUrl = inv.pdfUrl) := by
  obtain ⟨file, hfile⟩ := Option.isSome_iff_exists.mp hupload
  have hpaid2 : ¬ toLowerStr (o.orderStatus.getD "") ≠ "paid" := by
    rw [hpaid]; simp
  unfold generateInvoice
  simp only [htok, hoid, hfetch, hfile, hcreate, hfind, hpdf, hpaid2, not_true,
    not_false_iff, if_false, if_true, Bool.not_eq_true, ite_false, ite_true]
  cases hex : findInvoiceByNumber store
      (buildInvoiceNumber env.today (o.orderNumber.getD "AMG-XXXX")) with
  | some inv =>
    simp only [hex]
    exact ⟨trivial, trivial, trivial, trivial, trivial, inv, rfl, rfl⟩
  | none =>
    simp only [hex]
    have happ : findInvoiceByNumber
        (store ++ [{ number := buildInvoiceNumber env.today (o.orderNumber.getD "AMG-XXXX"),
                     pdfUrl := file.url, total := o.total.getD 0, currency := "ARS" }])
        (buildInvoiceNumber env.today (o.orderNumber.getD "AMG-XXXX")) =
        some { number := buildInvoiceNumber env.today (o.orderNumber.getD "AMG-XXXX"),
               pdfUrl := file.url, total := o.total.getD 0, currency := "ARS" } := by
      unfold findInvoiceByNumber at hex ⊢
      rw [find?_append_none _ _ _ hex]
      simp
    simp only [happ]
    exact ⟨trivial, trivial, trivial, trivial, trivial, _, rfl, rfl⟩

/-- **C5** witness: the idempotence run on a concrete paid order — the
first call creates `RC_20260105_AMG-7`, the second returns it as
`alreadyExists` with the stored PDF and adds nothing. -/
theorem claim5_witness :
    (generateInvoice "doc5" c5env []).1.invoiceNumber =
      some (buildInvoiceNumber c5env.today (c5order.orderNumber.getD "AMG-XXXX")) ∧
    (generateInvoice "doc5" c5env (generateInvoice "doc5" c5env []).2).1.ok = true ∧
    (generateInvoice "doc5" c5env (generateInvoice "doc5" c5env []).2).1.alreadyExists = true ∧
    (generateInvoice "doc5" c5env (generateInvoice "doc5" c5env []).2).1.invoiceNumber =
      some (buildInvoiceNumber c5env.today (c5order.orderNumber.getD "AMG-XXXX")) ∧
    (generateInvoice "doc5" c5env (generateInvoice "doc5" c5env []).2).2 =
      (generateInvoice "doc5" c5env []).2 ∧
    (∃ inv, findInvoiceByNumber (generateInvoice "doc5" c5env []).2
        (buildInvoiceNumber c5env.today (c5order.orderNumber.getD "AMG-XXXX")) = some inv ∧
      (generateInvoice "doc5" c5env (generateInvoice "doc5" c5env []).2).1.pdfUrl = inv.pdfUrl) :=
  claim5_generate_idempotent "doc5" c5env [] c5order rfl (by decide) rfl (by decide)
    rfl rfl (by decide) rfl

/- ===================== C4 helper lemmas ===================== -/

theorem setNeed_fst (l : List (String × NeedReq)) (d : String) (r : NeedReq) :
    (setNeed l d r).map Prod.fst =
      if d ∈ l.map Prod.fst then l.map Prod.fst else l.map Prod.fst ++ [d] := by
  induction l with
  | nil => simp [setNeed]
  | cons e rest ih =>
    obtain ⟨d1, r1⟩ := e
    by_cases hd : d1 = d
    · subst hd
      simp [setNeed]
    · simp only [setNeed, hd, if_false, List.map_cons, ih]
      by_cases hmem : d ∈ rest.map Prod.fst
      · simp [hmem, hd, Ne.symm hd]
      · simp [hmem, hd, Ne.symm hd]

theorem setNeed_keys_nodup (l : List (String × NeedReq)) (d : String) (r : NeedReq)
    (h : (l.map Prod.fst).Nodup) : ((setNeed l d r).map Prod.fst).Nodup := by
  rw [setNeed_fst]
  split
  · exact h
  next hd =>
    rw [List.nodup_append]
    exact ⟨h, List.nodup_singleton d, by simpa [List.disjoint_singleton] using hd⟩

theorem buildNeed_keys_nodup (items : List OrderItem) :
    ((buildNeed items).map Prod.fst).Nodup := by
  suffices h : ∀ acc : List (String × NeedReq), (acc.map Prod.fst).Nodup →
      ((items.foldl (fun need it =>
        let doc := jsTrim (it.productDocumentId.getD "")
        let q := (it.qty.orElse (fun _ => it.quantity)).getD 0
        if doc = "" ∨ q ≤ 0 then need
        else
          let prev := needLookup need doc
          setNeed need doc
            { requested := (prev.map (fun r => r.requested)).getD 0 + q
              title := (it.title.orElse (fun _ => prev.map (fun r => r.title))).getD "Producto" })
        acc).map Prod.fst).Nodup by
    exact h [] (by simp)
  induction items with
  | nil => intro acc hacc; exact hacc
  | cons it rest ih =>
    intro acc hacc
    rw [List.foldl_cons]
    apply ih
    dsimp only
    split
    · exact hacc
    · exact setNeed_keys_nodup _ _ _ hacc

theorem problemOf_doc (rows : List ProductRow) (e : String × NeedReq) (p : StockProblem)
    (h : problemOf rows e = some p) : p.productDocumentId = e.1 := by
  unfold problemOf at h
  split at h
  · cases h; rfl
  · split at h
    · cases h
    · split at h
      · cases h; rfl
      · cases h

theorem mem_computeProblems {rows : List ProductRow} {need : List (String × NeedReq)}
    {p : StockProblem} :
    p ∈ computeProblems rows need ↔ ∃ e, e ∈ need ∧ problemOf rows e = some p := by
  simp [computeProblems, List.mem_filterMap]

theorem computeProblems_docs_nodup (rows : List ProductRow)
    (need : List (String × NeedReq)) (h : (need.map Prod.fst).Nodup) :
    ((computeProblems rows need).map (fun p => p.productDocumentId)).Nodup := by
  induction need with
  | nil => simp [computeProblems]
  | cons e rest ih =>
    simp only [List.map_cons, List.nodup_cons] at h
    obtain ⟨hne, hrest⟩ := h
    rw [computeProblems, List.filterMap_cons]
    cases hfe : problemOf rows e with
    | none => exact ih hrest
    | some p =>
      rw [List.map_cons, List.nodup_cons]
      refine ⟨?_, ih hrest⟩
      intro hmem
      rw [List.mem_map] at hmem
      obtain ⟨q, hq, hqd⟩ := hmem
      obtain ⟨e1, he1, hqe⟩ := mem_computeProblems.mp hq
      have h1 : q.productDocumentId = e1.1 := problemOf_doc rows e1 q hqe
      have h2 : p.productDocumentId = e.1 := problemOf_doc rows e p hfe
      apply hne
      rw [List.mem_map]
      exact ⟨e1, he1, by rw [← h1, hqd, h2]⟩

theorem needLookup_mem {need : List (String × NeedReq)} {d : String} {r : NeedReq}
    (h : needLookup need d = some r) : (d, r) ∈ need := by
  unfold needLookup at h
  cases hf : need.find? (fun e => e.1 = d) with
  | none => rw [hf] at h; cases h
  | some e =>
    rw [hf] at h
    obtain ⟨e1, e2⟩ := e
    have hd : e1 = d := by simpa using List.find?_some hf
    have hr : e2 = r := by simpa using h
    subst hd
    subst hr
    exact List.mem_of_find?_eq_some hf

theorem needLookup_ne_nil {need : List (String × NeedReq)} {d : String} {r : NeedReq}
    (h : needLookup need d = some r) : need ≠ [] := by
  intro hnil
  subst hnil
  cases h

/- ===================== C4: stock-conflict rejection ===================== -/

/-- **C4**.  When a preference-creation request (passing all earlier
guards) reaches stock validation and some stock-tracked product's
aggregated requested quantity exceeds its backend stock, the route answers
409 `OUT_OF_STOCK` with the computed problems list, which carries exactly
one entry per shortfall — with the product document id, title, requested
and available quantities — and never mentions a product whose stock is
null. -/
theorem claim4_stock_conflict (env : PrefEnv) (o : COrder) (rows : List ProductRow)
    (hbody : env.bodyOk = true)
    (hmp : env.mpToken.isSome)
    (hsite : isHttpUrl (normalizeBaseUrl env.siteUrl) = true)
    (hstok : env.strapiToken.isSome)
    (hoid : ¬ jsTrim (env.bodyOrderId.getD "") = "")
    (hfetch : env.orderFetch = Except.ok o)
    (href : ¬ mpRefOf env o = "")
    (hitems : o.items ≠ [])
    (t : Rat) (htotal : o.total = some t) (htpos : 0 < t)
    (hrows : env.productsFetch = Except.ok rows)
    (hshort : ∃ d r row s, needLookup (buildNeed o.items) d = some r ∧
        byDocGet rows d = some row ∧ pickStock row = some s ∧ s < r.requested) :
    (createPreference env).status = 409 ∧
    (createPreference env).code = some "OUT_OF_STOCK" ∧
    (createPreference env).problems = computeProblems rows (buildNeed o.items) ∧
    (∀ d r, needLookup (buildNeed o.items) d = some r →
      (byDocGet rows d = none →
        ({ productDocumentId := d, title := r.title, requested := r.requested,
           available := 0 } : StockProblem) ∈ (createPreference env).problems) ∧
      (∀ row s, byDocGet rows d = some row → pickStock row = some s → s < r.requested →
        ({ productDocumentId := d, title := pickTitle row, requested := r.requested,
           available := s } : StockProblem) ∈ (createPreference env).problems)) ∧
    ((createPreference env).problems.map (fun p => p.productDocumentId)).Nodup ∧
    (∀ d row, byDocGet rows d = some row → pickStock row = none →
      ∀ p ∈ (createPreference env).problems, p.productDocumentId ≠ d) := by
  obtain ⟨mp, hmp2⟩ := Option.isSome_iff_exists.mp hmp
  obtain ⟨stok, hstok2⟩ := Option.isSome_iff_exists.mp hstok
  obtain ⟨d0, r0, row0, s0, hl0, hbd0, hst0, hlt0⟩ := hshort
  have hprob0 : problemOf rows (d0, r0) = some
      { productDocumentId := d0, title := pickTitle row0,
        requested := r0.requested, available := s0 } := by
    simp only [problemOf, hbd0, hst0]
    simp [hlt0]
  have hmem0 : ({ productDocumentId := d0, title := pickTitle row0,
                  requested := r0.requested, available := s0 } : StockProblem) ∈
      computeProblems rows (buildNeed o.items) :=
    mem_computeProblems.mpr ⟨(d0, r0), needLookup_mem hl0, hprob0⟩
  have hPne : computeProblems rows (buildNeed o.items) ≠ [] := List.ne_nil_of_mem hmem0
  have hNne : buildNeed o.items ≠ [] := needLookup_ne_nil hl0
  have hred : createPreference env =
      { status := 409, code := some "OUT_OF_STOCK",
        problems := computeProblems rows (buildNeed o.items), mpRequest := none } := by
    have h1 : ¬ (t ≤ 0) := not_le.mpr htpos
    have h2 : o.items.isEmpty = false := by simpa [List.isEmpty_iff] using hitems
    have h3 : (buildNeed o.items).isEmpty = false := by
      simpa [List.isEmpty_iff] using hNne
    have h4 : (computeProblems rows (buildNeed o.items)).isEmpty = false := by
      simpa [List.isEmpty_iff] using hPne
    unfold createPreference validateStock
    simp only [hbody, hmp2, hsite, hstok2, hoid, hfetch, href, h2, htotal, h1, hrows,
      h3, h4, not_true, not_false_iff, if_true, if_false, ite_true, ite_false,
      Bool.false_eq_true]
  rw [hred]
  refine ⟨rfl, rfl, rfl, ?_, ?_, ?_⟩
  · intro d r hlk
    constructor
    · intro hmiss
      apply mem_computeProblems.mpr
      refine ⟨(d, r), needLookup_mem hlk, ?_⟩
      simp only [problemOf, hmiss]
    · intro row s hbd hst hlt
      apply mem_computeProblems.mpr
      refine ⟨(d, r), needLookup_mem hlk, ?_⟩
      simp only [problemOf, hbd, hst]
      simp [hlt]
  · exact computeProblems_docs_nodup rows _ (buildNeed_keys_nodup o.items)
  · intro d row hbd hst p hp heqd
    obtain ⟨e, he, hpe⟩ := mem_computeProblems.mp hp
    have hdoc : p.productDocumentId = e.1 := problemOf_doc rows e p hpe
    rw [heqd] at hdoc
    simp only [problemOf] at hpe
    rw [← hdoc] at hpe
    simp [hbd, hst] at hpe

/-- **C4** witness: the request for 5 units of a stock-2 product is
rejected with 409 `OUT_OF_STOCK`. -/
theorem claim4_witness :
    (createPreference c4env).status = 409 ∧
    (createPreference c4env).code = some "OUT_OF_STOCK" := by
  have ht : jsTrim "p1" = "p1" := by decide
  have hb : buildNeed c4order.items = [("p1", { requested := 5, title := "Prod 1" })] := by
    have hne : ¬ "p1" = "" := by decide
    norm_num [buildNeed, c4order, c4item, setNeed, needLookup, List.find?_nil, ht, hne]
  have h := claim4_stock_conflict c4env c4order [c4row] rfl rfl (by decide) rfl
    (by decide) rfl (by decide) (by decide) 500 rfl (by norm_num) rfl
    ⟨"p1", { requested := 5, title := "Prod 1" }, c4row, 2,
      by rw [hb]; decide, by decide, rfl, by decide⟩
  exact ⟨h.1, h.2.1⟩

/- ===================== C3: single synthetic charge line ===================== -/

/-- **C3** (amended).  Whenever the route proceeds to call the payment
provider, the request body holds exactly one charge line with quantity 1
whose unit price is the order's stored total **rounded to the nearest
integer** (`Math.round`), independent of any client-submitted items or
totals; the original claim's "equals the order's total as stored" fails
for fractional totals, see the counterexample. -/
theorem claim3_single_charge_line (env : PrefEnv) (o : COrder) (pb : PreferenceBody)
    (hfetch : env.orderFetch = Except.ok o)
    (hmp : (createPreference env).mpRequest = some pb) :
    ∃ t, o.total = some t ∧
      pb.items = [chargeItemOf (toTruthy o.orderNumber) t] ∧
      (chargeItemOf (toTruthy o.orderNumber) t).quantity = 1 ∧
      (chargeItemOf (toTruthy o.orderNumber) t).unitPrice = ((round t : Int) : Rat) := by
  unfold createPreference at hmp
  rw [hfetch] at hmp
  dsimp only at hmp
  repeat' split at hmp
  all_goals try simp only [prefErr] at hmp
  all_goals try exact Option.noConfusion hmp
  all_goals simp only [Option.some.injEq] at hmp
  all_goals subst hmp
  all_goals exact ⟨_, by assumption, rfl, rfl, rfl⟩

/-- **C3** counterexample: with stored total 99.5 the provider is charged a
single line of unit price 100 — not the stored total, refuting the claim
as stated. -/
theorem claim3_counterexample :
    c3order.total = some (199/2 : Rat) ∧
    (createPreference c3env).mpRequest =
      some { items := [{ title := "Pedido AMG-1", quantity := 1,
                         unitPrice := 100, currency := "ARS" }],
             externalReference := "ref-1" } ∧
    (100 : Rat) ≠ 199/2 := by
  refine ⟨rfl, ?_, by norm_num⟩
  have h1 : jsTrim "d1" = "d1" := by decide
  have h2 : jsTrim "ref-1" = "ref-1" := by decide
  have h3 : isHttpUrl (normalizeBaseUrl "https://shop.example") = true := by decide
  have h4 : jsTrim "Alfajor" = "Alfajor" := by decide
  have h5 : ¬ ("d1" = "") := by decide
  have h6 : ¬ ("ref-1" = "") := by decide
  have h7 : ¬ ("Alfajor" = "") := by decide
  have h8 : ¬ ("AMG-1" = "") := by decide
  have h9 : jsTrim "" = "" := by decide
  have h10 : "Pedido " ++ "AMG-1" = "Pedido AMG-1" := by decide
  norm_num [createPreference, c3env, c3order, mpRefOf, validateStock, buildNeed,
    normalizedItems, chargeItemOf, toTruthy, h1, h2, h3, h4, h5, h6, h7, h8, h9, h10,
    round_eq]

/-- **C3** witness: the amended claim evaluated on an integer-total order. -/
theorem claim3_witness :
    ∃ t, c3worder.total = some t ∧
      c3wpb.items = [chargeItemOf (toTruthy c3worder.orderNumber) t] ∧
      (chargeItemOf (toTruthy c3worder.orderNumber) t).quantity = 1 ∧
      (chargeItemOf (toTruthy c3worder.orderNumber) t).unitPrice = ((round t : Int) : Rat) := by
  have h1 : jsTrim "d1" = "d1" := by decide
  have h2 : jsTrim "ref-1" = "ref-1" := by decide
  have h3 : isHttpUrl (normalizeBaseUrl "https://shop.example") = true := by decide
  have h4 : jsTrim "Alfajor" = "Alfajor" := by decide
  have h5 : ¬ ("d1" = "") := by decide
  have h6 : ¬ ("ref-1" = "") := by decide
  have h7 : ¬ ("Alfajor" = "") := by decide
  have h9 : jsTrim "" = "" := by decide
  have hmp : (createPreference c3wenv).mpRequest = some c3wpb := by
    norm_num [createPreference, c3wenv, c3env, c3worder, c3order, c3wpb, mpRefOf,
      validateStock, buildNeed, normalizedItems, toTruthy,
      h1, h2, h3, h4, h5, h6, h7, h9]
  exact claim3_single_charge_line c3wenv c3worder c3wpb rfl hmp
